import Mathlib

/-!
# Verification of the attribute comparison / validation core of
# dcarbone/terraform-plugin-framework-utils (v3)

A shallow embedding of the library's value-state classifier
(`conv.TestAttributeValueState`), type-coercion layer (`internal/util`),
comparison strategies and comparison-function registry
(`validation/comparison.go`), and the generic validator wrapper
(`validation/validators.go`), together with theorems settling the spec
claims about them.

Modelling conventions:
* Go `error` results become `Option`/`Except` values; the distinguishable
  error classes of `validation/errors.go` become an inductive type.
* Go panics reachable from the embedded functions are made explicit with a
  dedicated `panics` outcome.
* `float64`, `float32` and `*big.Float` magnitudes are modelled as exact
  rationals (`Rat`); a nil `*big.Float` pointer is `Option.none`.  No claim
  below depends on floating-point rounding.
* Go slices are Lean lists.  Where the source mutates a caller-supplied
  slice in place, the embedded function also returns the final contents of
  that slice, modelling the caller-visible backing array after the call.
* `strings.ToLower` is modelled at the ASCII level by `String.toLower`.
-/

namespace TFPUtils

/-- The comparison operators (`validation/comparison.go`, `CompareOp` constants). -/
inductive CompareOp
  | equal
  | lessThan
  | lessThanOrEqualTo
  | greaterThan
  | greaterThanOrEqualTo
  | notEqual
  | oneOf
  | notOneOf
deriving DecidableEq, Repr

/-- The distinguishable error classes produced by comparison strategies
(`validation/errors.go`).  `noComparisonFuncRegistered` carries the operator
because `NoComparisonFuncRegisteredError(op, t)` embeds `op.Name()` in the
error it builds. -/
inductive CmpError
  | comparisonFailed
  | typeConversionFailed
  | unexpectedTargetType
  | unexpectedActualType
  | noComparisonFuncRegistered (op : CompareOp)
deriving DecidableEq, Repr

/-- Outcome of invoking a comparison function: `ok` is a nil error, `err` a
returned error of a given class, and `panics` a Go panic raised before the
function returns. -/
inductive CmpOutcome
  | ok
  | err (e : CmpError)
  | panics
deriving DecidableEq, Repr

/-- The Go runtime types distinguished by the comparison layer's type
switches and by the registry's reflected type keys. -/
inductive GoType
  | tBool
  | tInt
  | tInt8
  | tInt16
  | tInt32
  | tInt64
  | tFloat32
  | tFloat64
  | tString
  | tBigFloatPtr
  | tStringSlice
  | tIntSlice
deriving DecidableEq, Repr

/-- Dynamic Go values (the `interface{}` comparison targets).  Fixed-width
integer kinds carry an unbounded `Int`; a Go value of type `int8` etc. is
already within its range, and no embedded claim depends on the width.
`goBigFloat none` is a nil `*big.Float` pointer. -/
inductive GoVal
  | goBool (b : Bool)
  | goInt (n : Int)
  | goInt8 (n : Int)
  | goInt16 (n : Int)
  | goInt32 (n : Int)
  | goInt64 (n : Int)
  | goFloat32 (q : Rat)
  | goFloat64 (q : Rat)
  | goString (s : String)
  | goBigFloat (v : Option Rat)
  | goStringSlice (xs : List String)
  | goIntSlice (xs : List Int)
deriving DecidableEq, Repr

/-- The runtime type of a dynamic Go value (`reflect.TypeOf`). -/
def GoVal.typeOf : GoVal → GoType
  | .goBool _ => .tBool
  | .goInt _ => .tInt
  | .goInt8 _ => .tInt8
  | .goInt16 _ => .tInt16
  | .goInt32 _ => .tInt32
  | .goInt64 _ => .tInt64
  | .goFloat32 _ => .tFloat32
  | .goFloat64 _ => .tFloat64
  | .goString _ => .tString
  | .goBigFloat _ => .tBigFloatPtr
  | .goStringSlice _ => .tStringSlice
  | .goIntSlice _ => .tIntSlice

/-- `util.BuildReflectTypeKey` (internal/util/reflect.go): the registry key
string `PkgPath.Name.String` of a reflected type.  Named scalar types have an
empty package path and pointer/slice types additionally have an empty name,
exactly as `reflect` reports them. -/
def BuildReflectTypeKey : GoType → String
  | .tBool => ".bool.bool"
  | .tInt => ".int.int"
  | .tInt8 => ".int8.int8"
  | .tInt16 => ".int16.int16"
  | .tInt32 => ".int32.int32"
  | .tInt64 => ".int64.int64"
  | .tFloat32 => ".float32.float32"
  | .tFloat64 => ".float64.float64"
  | .tString => ".string.string"
  | .tBigFloatPtr => "..*big.Float"
  | .tStringSlice => "..[]string"
  | .tIntSlice => "..[]int"

/-- `util.KeyFN` (internal/util/reflect.go): key of a value's runtime type. -/
def KeyFN (t : GoVal) : String :=
  BuildReflectTypeKey t.typeOf

/-- The framework's attribute values (`attr.Value` implementations of the
`types` package): a tagged union over the value kinds, each carrying its
`IsUnknown`/`IsNull` flags and its concrete payload.  A `number` payload is
the possibly-nil `*big.Float` behind `types.Number`.  Map entries carry
their keys, though no embedded function inspects them. -/
inductive AttrValue
  | bool (unknown null : Bool) (value : Bool)
  | float64 (unknown null : Bool) (value : Rat)
  | int64 (unknown null : Bool) (value : Int)
  | number (unknown null : Bool) (value : Option Rat)
  | string (unknown null : Bool) (value : String)
  | object (unknown null : Bool)
  | list (unknown null : Bool) (elems : List AttrValue)
  | set (unknown null : Bool) (elems : List AttrValue)
  | map (unknown null : Bool) (elems : List (String × AttrValue))

/-- `attr.Value.IsUnknown()`. -/
def AttrValue.isUnknown : AttrValue → Bool
  | .bool u _ _ => u
  | .float64 u _ _ => u
  | .int64 u _ _ => u
  | .number u _ _ => u
  | .string u _ _ => u
  | .object u _ => u
  | .list u _ _ => u
  | .set u _ _ => u
  | .map u _ _ => u

/-- `attr.Value.IsNull()`. -/
def AttrValue.isNull : AttrValue → Bool
  | .bool _ n _ => n
  | .float64 _ n _ => n
  | .int64 _ n _ => n
  | .number _ n _ => n
  | .string _ n _ => n
  | .object _ n => n
  | .list _ n _ => n
  | .set _ n _ => n
  | .map _ n _ => n

/-- The classifier's sentinel errors (conv errors.go: `ErrValueIsUnknown`,
`ErrValueIsNull`, `ErrValueIsEmpty`). -/
inductive StateErr
  | valueIsUnknown
  | valueIsNull
  | valueIsEmpty
deriving DecidableEq, Repr

/-- `conv.IsValueIsUnknownError` applied to a classifier result. -/
def IsValueIsUnknownError (e : Option StateErr) : Bool :=
  e == some .valueIsUnknown

/-- `conv.IsValueIsNullError` applied to a classifier result. -/
def IsValueIsNullError (e : Option StateErr) : Bool :=
  e == some .valueIsNull

/-- The `empty` flag computed by `conv.TestAttributeValueState`'s type
switch (conv attr.go, v3): List and Map are flagged empty when their element
count is zero, String when its value is the empty string, while the Set case
tests `AttributeValueLength(av) > 0`.  All remaining kinds leave the flag
false. -/
def attrValueEmpty : AttrValue → Bool
  | .list _ _ elems => elems.length == 0
  | .map _ _ elems => elems.length == 0
  | .set _ _ elems => decide (elems.length > 0)
  | .string _ _ s => s == ""
  | _ => false

/-- `conv.TestAttributeValueState` (conv attr.go, v3): reads the unknown and
null flags, computes the type-specific `empty` flag, and reports the first of
unknown, null, empty that holds, or nil. -/
def TestAttributeValueState (av : AttrValue) : Option StateErr :=
  if av.isUnknown then some .valueIsUnknown
  else if av.isNull then some .valueIsNull
  else if attrValueEmpty av then some .valueIsEmpty
  else none

/-- Failure modes of the `util.TryCoerceTo*` functions: a string that does
not parse, or an `interface{}` kind the type switch does not handle. -/
inductive CoerceError
  | parseFailure
  | unhandledType
deriving DecidableEq, Repr

/-- Model of `strconv.Atoi` / `strconv.ParseInt(s, 10, 64)`: base-10 signed
integer parsing (the int64 range check is not modelled; no claim depends on
it). -/
def parseInt10 (s : String) : Except CoerceError Int :=
  match s.toInt? with
  | some n => .ok n
  | none => .error .parseFailure

/-- Model of `strconv.ParseFloat(s, 64)` on plain base-10 decimal literals
(exponent notation is not modelled; no claim depends on the string branch). -/
def parseDecimalRat (s : String) : Except CoerceError Rat :=
  let sign : Int := if s.startsWith "-" then -1 else 1
  let t : String := if s.startsWith "-" || s.startsWith "+" then s.drop 1 else s
  match t.split (· = '.') with
  | [w] =>
    match w.toNat? with
    | some n => .ok ((sign * (n : Int) : Int) : Rat)
    | none => .error .parseFailure
  | [w, f] =>
    match w.toNat?, f.toNat? with
    | some n, some fr =>
      .ok ((sign : Rat) * ((n : Rat) + (fr : Rat) / ((10 : Rat) ^ f.length)))
    | _, _ => .error .parseFailure
  | _ => .error .parseFailure

/-- Model of `strconv.ParseBool`. -/
def parseGoBool (s : String) : Except CoerceError Bool :=
  if s = "1" ∨ s = "t" ∨ s = "T" ∨ s = "TRUE" ∨ s = "true" ∨ s = "True" then .ok true
  else if s = "0" ∨ s = "f" ∨ s = "F" ∨ s = "FALSE" ∨ s = "false" ∨ s = "False" then .ok false
  else .error .parseFailure

/-- Go numeric conversion `int64(f)` from a float: truncation toward zero. -/
def ratTruncToInt (q : Rat) : Int :=
  if 0 ≤ q then q.floor else q.ceil

/-- `(*big.Float).Int64()`: truncation toward zero, saturating at the int64
bounds. -/
def bigFloatInt64 (q : Rat) : Int :=
  max (-(2 ^ 63)) (min (2 ^ 63 - 1) (ratTruncToInt q))

/-- `util.TryCoerceToBool` (internal/util/conv.go). -/
def TryCoerceToBool : GoVal → Except CoerceError Bool
  | .goBool b => .ok b
  | .goString s => parseGoBool s
  | _ => .error .unhandledType

/-- `util.TryCoerceToInt` (internal/util/conv.go).  `int` is 64-bit here, so
the final `int(out)` conversions are the identity.  A nil `*big.Float`
yields `(0, nil)`. -/
def TryCoerceToInt : GoVal → Except CoerceError Int
  | .goInt n => .ok n
  | .goInt8 n => .ok n
  | .goInt16 n => .ok n
  | .goInt32 n => .ok n
  | .goInt64 n => .ok n
  | .goFloat32 q => .ok (ratTruncToInt q)
  | .goFloat64 q => .ok (ratTruncToInt q)
  | .goString s => parseInt10 s
  | .goBigFloat none => .ok 0
  | .goBigFloat (some q) => .ok (bigFloatInt64 q)
  | _ => .error .unhandledType

/-- `util.TryCoerceToInt64` (internal/util/conv.go).  A nil `*big.Float`
yields `(0, nil)`. -/
def TryCoerceToInt64 : GoVal → Except CoerceError Int
  | .goInt n => .ok n
  | .goInt8 n => .ok n
  | .goInt16 n => .ok n
  | .goInt32 n => .ok n
  | .goInt64 n => .ok n
  | .goFloat32 q => .ok (ratTruncToInt q)
  | .goFloat64 q => .ok (ratTruncToInt q)
  | .goString s => parseInt10 s
  | .goBigFloat none => .ok 0
  | .goBigFloat (some q) => .ok (bigFloatInt64 q)
  | _ => .error .unhandledType

/-- `util.TryCoerceToFloat64` (internal/util/conv.go).  Numeric magnitudes
are exact rationals in this model, so the integer and `(*big.Float).Float64`
branches are exact.  A nil `*big.Float` yields `(0, nil)`. -/
def TryCoerceToFloat64 : GoVal → Except CoerceError Rat
  | .goInt n => .ok (n : Rat)
  | .goInt8 n => .ok (n : Rat)
  | .goInt16 n => .ok (n : Rat)
  | .goInt32 n => .ok (n : Rat)
  | .goInt64 n => .ok (n : Rat)
  | .goFloat32 q => .ok q
  | .goFloat64 q => .ok q
  | .goString s => parseDecimalRat s
  | .goBigFloat none => .ok 0
  | .goBigFloat (some q) => .ok q
  | _ => .error .unhandledType

/-- `util.TryCoerceToBigFloat` (internal/util/conv.go): coerce to float64,
then wrap with `big.NewFloat` (never a nil pointer). -/
def TryCoerceToBigFloat (v : GoVal) : Except CoerceError Rat :=
  match TryCoerceToFloat64 v with
  | .ok f => .ok f
  | .error e => .error e

/-- `conv.BoolValueToBool` = `ValueToBoolType(av).ValueBool()`: extracts the
stored bool of a Bool-kind attribute; `ValueToBoolType` panics on every
other kind, modelled by `none`. -/
def BoolValueToBool : AttrValue → Option Bool
  | .bool _ _ b => some b
  | _ => none

/-- `conv.NumberValueToBigFloat` = `ValueToNumberType(av).ValueBigFloat()`:
the possibly-nil `*big.Float` of a Number-kind attribute; `ValueToNumberType`
panics on every other kind, modelled by the outer `none`. -/
def NumberValueToBigFloat : AttrValue → Option (Option Rat)
  | .number _ _ v => some v
  | _ => none

/-- `(*big.Float).Cmp`: the three-way compare producing -1, 0 or 1. -/
def bigFloatCmp (a b : Rat) : Int :=
  if a < b then -1 else if a = b then 0 else 1

/-- `validation.compareBool` (validation/comparison.go).  The attribute's
bool is extracted first via `conv.BoolValueToBool`, which panics on non-Bool
attributes; then the target is coerced, a coercion failure yielding an
UnexpectedComparisonTargetTypeError; then the operator switch runs, its
default branch returning `NoComparisonFuncRegisteredError(op, av)` and a
failed Equal/NotEqual falling through to `ComparisonFailedError`. -/
def compareBool (av : AttrValue) (op : CompareOp) (target : GoVal) : CmpOutcome :=
  match BoolValueToBool av with
  | none => .panics
  | some actBool =>
    match TryCoerceToBool target with
    | .error _ => .err .unexpectedTargetType
    | .ok expBool =>
      match op with
      | .equal => if actBool = expBool then .ok else .err .comparisonFailed
      | .notEqual => if actBool ≠ expBool then .ok else .err .comparisonFailed
      | _ => .err (.noComparisonFuncRegistered op)

/-- `validation.compareBigFloat` (validation/comparison.go, v3).  The
attribute's `*big.Float` comes from `conv.NumberValueToBigFloat` (panics on
non-Number attributes); calling `Cmp` on a nil receiver also panics.  In the
operator switch, the `NotEqual` case returns `ComparisonFailedError` when
`cmp == 0`, and otherwise falls through to the trailing
`ComparisonFailedError` — there is no `return nil` on its path, so both
branches produce a ComparisonFailed error. -/
def compareBigFloat (av : AttrValue) (op : CompareOp) (target : GoVal) : CmpOutcome :=
  match NumberValueToBigFloat av with
  | none => .panics
  | some actualBF =>
    match TryCoerceToBigFloat target with
    | .error _ => .err .unexpectedTargetType
    | .ok expectedBF =>
      match actualBF with
      | none => .panics
      | some act =>
        let cmp := bigFloatCmp act expectedBF
        match op with
        | .equal => if cmp = 0 then .ok else .err .comparisonFailed
        | .notEqual => if cmp = 0 then .err .comparisonFailed else .err .comparisonFailed
        | .greaterThan => if cmp = 1 then .ok else .err .comparisonFailed
        | .greaterThanOrEqualTo => if cmp = 0 ∨ cmp = 1 then .ok else .err .comparisonFailed
        | .lessThan => if cmp = -1 then .ok else .err .comparisonFailed
        | .lessThanOrEqualTo => if cmp = -1 ∨ cmp = 0 then .ok else .err .comparisonFailed
        | _ => .err (.noComparisonFuncRegistered op)

/-- `strings.ToLower`, modelled at the ASCII level: `Char.toLower` mapped
over the characters (extensionally `String.toLower`, phrased over the char
list so concrete instances reduce in the kernel). -/
def goToLower (s : String) : String :=
  ⟨s.data.map Char.toLower⟩

/-- Result of `validation.compareStringToStrings`: the returned error and the
caller-visible contents of the target slice after the call (the source
lower-cases the slice in place when the case-insensitive flag is set). -/
structure StringCmpResult where
  err : Option CmpError
  targets : List String
deriving DecidableEq, Repr

/-- `validation.compareStringToStrings` (validation/comparison.go): with the
case-insensitive flag, the attribute string is lower-cased and each target
element is overwritten with its lower-cased form; `OneOf` returns nil at the
first match and otherwise falls through to `ComparisonFailedError`;
`NotOneOf` returns `ComparisonFailedError` at the first match and nil
otherwise; every other operator gets `NoComparisonFuncRegisteredError`. -/
def compareStringToStrings (avStr : String) (op : CompareOp)
    (targets0 : List String) (caseInsensitive : Bool) : StringCmpResult :=
  let actStr := if caseInsensitive then goToLower avStr else avStr
  let targets := if caseInsensitive then targets0.map goToLower else targets0
  let e : Option CmpError :=
    match op with
    | .oneOf => if targets.contains actStr then none else some .comparisonFailed
    | .notOneOf => if targets.contains actStr then some .comparisonFailed else none
    | _ => some (.noComparisonFuncRegistered op)
  ⟨e, targets⟩

/-- The element scan of `compareStringsToStrings`' Equal/NotEqual loops:
true iff no position mismatches (the source only runs the loop after
checking the two lengths are equal, so the zip truncation is inert). -/
def positionsAllEqual (actuals targets : List String) : Bool :=
  (actuals.zip targets).all (fun p => p.1 == p.2)

/-- Result of `validation.compareStringsToStrings`: the returned error and
the caller-visible contents of both slices after the call (the source
lower-cases both in place when the case-insensitive flag is set). -/
structure StringsCmpResult where
  err : Option CmpError
  actuals : List String
  targets : List String
deriving DecidableEq, Repr

/-- `validation.compareStringsToStrings` (validation/comparison.go): with
the case-insensitive flag, each target and each actual element is
overwritten with its lower-cased form.  `Equal` requires equal lengths and
then a full positional scan, any mismatch or a length mismatch falling
through to `ComparisonFailedError`; `NotEqual` succeeds on a length mismatch
or a first positional mismatch, and falls through to
`ComparisonFailedError` when the scans find none; every other operator gets
`NoComparisonFuncRegisteredError`. -/
def compareStringsToStrings (actuals0 : List String) (op : CompareOp)
    (targets0 : List String) (caseInsensitive : Bool) : StringsCmpResult :=
  let targets := if caseInsensitive then targets0.map goToLower else targets0
  let actuals := if caseInsensitive then actuals0.map goToLower else actuals0
  let e : Option CmpError :=
    match op with
    | .equal =>
      if actuals.length = targets.length then
        if positionsAllEqual actuals targets then none else some .comparisonFailed
      else some .comparisonFailed
    | .notEqual =>
      if actuals.length ≠ targets.length then none
      else if positionsAllEqual actuals targets then some .comparisonFailed else none
    | _ => some (.noComparisonFuncRegistered op)
  ⟨e, actuals, targets⟩

/-- The shape of a registered comparison function (`validation.ComparisonFunc`):
attribute value, operator, target, variadic metadata. -/
def ComparisonFunc : Type :=
  AttrValue → CompareOp → GoVal → List GoVal → CmpOutcome

/-- The process-wide `comparisonFuncs` table, `map[string]ComparisonFunc`
keyed by reflected type keys.  The mutex guards individual reads and writes;
each embedded operation below is one such atomic map operation. -/
def Registry : Type :=
  String → Option ComparisonFunc

/-- `validation.SetComparisonFunc`: installs or overwrites the entry keyed
by `util.KeyFN(targetType)` (last writer wins). -/
def SetComparisonFunc (m : Registry) (targetType : GoVal) (fn : ComparisonFunc) : Registry :=
  fun k => if k = KeyFN targetType then some fn else m k

/-- `validation.GetComparisonFunc`: lookup by the same type-key derivation. -/
def GetComparisonFunc (m : Registry) (targetType : GoVal) : Option ComparisonFunc :=
  m (KeyFN targetType)

/-- `validation.CompareAttrValues`: resolve the registered function for the
target's runtime type and run it, or return an error wrapping
`ErrNoComparisonFuncRegistered` naming the operator when none is found. -/
def CompareAttrValues (m : Registry) (av : AttrValue) (op : CompareOp)
    (target : GoVal) (meta : List GoVal) : CmpOutcome :=
  match GetComparisonFunc m target with
  | some fn => fn av op target meta
  | none => .err (.noComparisonFuncRegistered op)

/-- The `validation.Generic` validator (validation/validators.go), reduced
to the fields `Validate` reads: the bound test function and the two skip
flags.  The test function's only observable effect is appending diagnostics
to the response, so it is modelled as a transformer of an abstract response
state `ρ`. -/
structure Generic (ρ : Type) where
  fn : ρ → ρ
  skipNull : Bool
  skipUnknown : Bool

/-- `Generic.Validate` (validation/validators.go): classify the attribute
value, return untouched when the unknown (resp. null) sentinel is reported
and the corresponding skip flag is set, otherwise run the test function. -/
def Generic.Validate {ρ : Type} (g : Generic ρ) (av : AttrValue) (resp : ρ) : ρ :=
  let e := TestAttributeValueState av
  if g.skipUnknown && IsValueIsUnknownError e then resp
  else if g.skipNull && IsValueIsNullError e then resp
  else g.fn resp

/-! ## Theorems settling the claims -/

/-- Claim C1.  Evaluation at the failing inputs: a known, non-null Set with
zero elements classifies as Valued (nil) and a Set with one element
classifies as Empty — the exact inverse of the rule the claim states, and of
the List rule shown alongside.  The Set case of `TestAttributeValueState`
computes `empty = AttributeValueLength(av) > 0` where every other collection
uses `== 0`. -/
theorem c1_set_emptiness_inverted_eval :
    TestAttributeValueState (AttrValue.set false false []) = none
  ∧ TestAttributeValueState (AttrValue.set false false [AttrValue.string false false "a"])
      = some StateErr.valueIsEmpty
  ∧ TestAttributeValueState (AttrValue.list false false []) = some StateErr.valueIsEmpty
  ∧ TestAttributeValueState (AttrValue.list false false [AttrValue.string false false "a"])
      = none :=
  ⟨rfl, rfl, rfl, rfl⟩

/-- Claim C2.  Contrary to the claim, the decimal strategy invoked with
`NotEqual` returns a ComparisonFailed error for every pair of decimal
values, including every pair with nonzero three-way compare: the `NotEqual`
case of `compareBigFloat` returns `ComparisonFailedError` when `cmp == 0`
and otherwise falls through to the trailing `ComparisonFailedError`, never
reaching a `return nil`. -/
theorem c2_bigfloat_notequal_always_fails (q r : Rat) :
    compareBigFloat (AttrValue.number false false (some q)) CompareOp.notEqual
      (GoVal.goBigFloat (some r)) = CmpOutcome.err CmpError.comparisonFailed := by
  simp [compareBigFloat, NumberValueToBigFloat, TryCoerceToBigFloat, TryCoerceToFloat64]

/-- Claim C9.  A nil `*big.Float` input coerces to the zero value of the
target kind with a nil error in `TryCoerceToInt`, `TryCoerceToInt64` and
`TryCoerceToFloat64`. -/
theorem c9_nil_bigfloat_coerces_to_zero :
    TryCoerceToInt (GoVal.goBigFloat none) = Except.ok 0
  ∧ TryCoerceToInt64 (GoVal.goBigFloat none) = Except.ok 0
  ∧ TryCoerceToFloat64 (GoVal.goBigFloat none) = Except.ok 0 :=
  ⟨rfl, rfl, rfl⟩

/-- Claim C10.  With the case-insensitive flag set, both string-collection
comparison functions leave the caller-visible target slice holding the
lower-cased elements (mutated in place by the source), and a concrete
caller-visible mutation is exhibited; with the flag unset the target slice
is unchanged. -/
theorem c10_target_slice_mutation (s : String) (as ts : List String) (op : CompareOp) :
    ((compareStringToStrings s op ts true).targets = ts.map goToLower)
  ∧ ((compareStringToStrings s op ts false).targets = ts)
  ∧ ((compareStringsToStrings as op ts true).targets = ts.map goToLower)
  ∧ ((compareStringsToStrings as op ts false).targets = ts)
  ∧ (compareStringToStrings "a" CompareOp.oneOf ["B"] true).targets ≠ ["B"] :=
  ⟨rfl, rfl, rfl, rfl, by decide⟩

/-- Claim C8, counterexample.  The claim asserts that with a bool-typed
target, the bool strategy invoked with an operator other than Equal and
NotEqual always returns a NoStrategyRegistered-class error and never
panics; but `compareBool` first extracts the attribute bool through
`conv.BoolValueToBool`, whose `ValueToBoolType` panics on a non-Bool
attribute — here an Int64 attribute with the LessThan operator — before the
operator switch is reached. -/
theorem c8_compare_bool_panics_counterexample :
    compareBool (AttrValue.int64 false false 0) CompareOp.lessThan (GoVal.goBool true)
      = CmpOutcome.panics :=
  rfl

/-- Claim C8, amended: for every bool-typed target and Bool-typed attribute
value, the bool strategy supports exactly Equal and NotEqual — any other
operator returns the NoStrategyRegistered-class error naming that operator
(so never nil and never a panic), while Equal and NotEqual compare the two
booleans and report ComparisonFailed on mismatch. -/
theorem c8_bool_operator_support_amended (u n b tb : Bool) (op : CompareOp) :
    (op ≠ CompareOp.equal → op ≠ CompareOp.notEqual →
      compareBool (AttrValue.bool u n b) op (GoVal.goBool tb)
        = CmpOutcome.err (CmpError.noComparisonFuncRegistered op))
  ∧ (compareBool (AttrValue.bool u n b) CompareOp.equal (GoVal.goBool tb)
        = if b = tb then CmpOutcome.ok else CmpOutcome.err CmpError.comparisonFailed)
  ∧ (compareBool (AttrValue.bool u n b) CompareOp.notEqual (GoVal.goBool tb)
        = if b = tb then CmpOutcome.err CmpError.comparisonFailed else CmpOutcome.ok) := by
  refine ⟨fun h1 h2 => ?_, ?_, ?_⟩
  · cases op <;> first | rfl | exact absurd rfl h1 | exact absurd rfl h2
  · by_cases hb : b = tb <;> simp [compareBool, BoolValueToBool, TryCoerceToBool, hb]
  · by_cases hb : b = tb <;> simp [compareBool, BoolValueToBool, TryCoerceToBool, hb]

/-- Claim C8, witness for the amended theorem at `OneOf`. -/
theorem c8_bool_operator_support_amended_witness :
    CompareOp.oneOf ≠ CompareOp.equal ∧ CompareOp.oneOf ≠ CompareOp.notEqual
  ∧ compareBool (AttrValue.bool false false true) CompareOp.oneOf (GoVal.goBool true)
      = CmpOutcome.err (CmpError.noComparisonFuncRegistered CompareOp.oneOf) :=
  ⟨by decide, by decide,
    (c8_bool_operator_support_amended false false true true CompareOp.oneOf).1
      (by decide) (by decide)⟩

/-- Claim C3.  The classifier reports exactly one state with fixed
precedence: Unknown whenever `isUnknown` holds, regardless of nullness and
emptiness; otherwise Null whenever `isNull` holds, regardless of emptiness;
otherwise Empty exactly when the type-specific emptiness flag holds, and
Valued (nil) otherwise. -/
theorem c3_classifier_precedence (av : AttrValue) :
    (av.isUnknown = true → TestAttributeValueState av = some StateErr.valueIsUnknown)
  ∧ (av.isUnknown = false → av.isNull = true →
      TestAttributeValueState av = some StateErr.valueIsNull)
  ∧ (av.isUnknown = false → av.isNull = false →
      TestAttributeValueState av
        = if attrValueEmpty av then some StateErr.valueIsEmpty else none) := by
  refine ⟨fun h => ?_, fun h1 h2 => ?_, fun h1 h2 => ?_⟩ <;>
    simp [TestAttributeValueState, *]

/-- Claim C3, witness: an unknown-and-null Set classifies as Unknown, and a
known null Set classifies as Null. -/
theorem c3_classifier_precedence_witness :
    ((AttrValue.set true true []).isUnknown = true
      ∧ TestAttributeValueState (AttrValue.set true true []) = some StateErr.valueIsUnknown)
  ∧ ((AttrValue.set false true []).isUnknown = false
      ∧ (AttrValue.set false true []).isNull = true
      ∧ TestAttributeValueState (AttrValue.set false true []) = some StateErr.valueIsNull) :=
  ⟨⟨rfl, (c3_classifier_precedence _).1 rfl⟩,
   ⟨rfl, rfl, (c3_classifier_precedence _).2.1 rfl rfl⟩⟩

/-- Claim C4.  A Generic validator with `SkipWhenUnknown` set leaves the
response untouched (never invokes the bound test function) when the
classifier reports Unknown; with `SkipWhenNull` set it does the same when
the classifier reports Null; in every other case `Validate` applies the
test function exactly once. -/
theorem c4_generic_validate_skip_policy {ρ : Type} (g : Generic ρ) (av : AttrValue) (resp : ρ) :
    (g.skipUnknown = true → TestAttributeValueState av = some StateErr.valueIsUnknown →
        g.Validate av resp = resp)
  ∧ (g.skipNull = true → TestAttributeValueState av = some StateErr.valueIsNull →
        g.Validate av resp = resp)
  ∧ ((g.skipUnknown = true → TestAttributeValueState av ≠ some StateErr.valueIsUnknown) →
     (g.skipNull = true → TestAttributeValueState av ≠ some StateErr.valueIsNull) →
        g.Validate av resp = g.fn resp) := by
  refine ⟨fun hs hu => ?_, fun hs hn => ?_, fun h1 h2 => ?_⟩
  · simp [Generic.Validate, IsValueIsUnknownError, hs, hu]
  · simp [Generic.Validate, IsValueIsUnknownError, IsValueIsNullError, hs, hn]
  · rcases hst : TestAttributeValueState av with _ | se
    · simp [Generic.Validate, IsValueIsUnknownError, IsValueIsNullError, hst]
    · cases se
      · have hsu : g.skipUnknown = false := by
          cases h : g.skipUnknown
          · rfl
          · exact absurd hst (h1 h)
        simp [Generic.Validate, IsValueIsUnknownError, IsValueIsNullError, hst, hsu]
      · have hsn : g.skipNull = false := by
          cases h : g.skipNull
          · rfl
          · exact absurd hst (h2 h)
        simp [Generic.Validate, IsValueIsUnknownError, IsValueIsNullError, hst, hsn]
      · simp [Generic.Validate, IsValueIsUnknownError, IsValueIsNullError, hst]

/-- Claim C4, witness: with `SkipWhenUnknown` set and an unknown Bool
attribute, the counting test function is not invoked; with both skip flags
clear and a null attribute, it is invoked exactly once. -/
theorem c4_generic_validate_skip_policy_witness :
    ((Generic.mk Nat.succ false true).skipUnknown = true
      ∧ TestAttributeValueState (AttrValue.bool true false false) = some StateErr.valueIsUnknown
      ∧ (Generic.mk Nat.succ false true).Validate (AttrValue.bool true false false) 0 = 0)
  ∧ (Generic.mk Nat.succ false false).Validate (AttrValue.bool false true false) 0 = 1 :=
  ⟨⟨rfl, rfl,
    (c4_generic_validate_skip_policy (Generic.mk Nat.succ false true)
      (AttrValue.bool true false false) 0).1 rfl rfl⟩,
   (c4_generic_validate_skip_policy (Generic.mk Nat.succ false false)
      (AttrValue.bool false true false) 0).2.2
      (fun h _ => by cases h) (fun h _ => by cases h)⟩

/-- Claim C5.  After `SetComparisonFunc` installs a strategy under the type
key derived from a target exemplar, every `CompareAttrValues` call whose
target has the same runtime type dispatches to exactly the installed
strategy (last writer wins over the registry entry). -/
theorem c5_registry_override (m : Registry) (exemplar target : GoVal) (fn : ComparisonFunc)
    (av : AttrValue) (op : CompareOp) (meta : List GoVal)
    (h : target.typeOf = exemplar.typeOf) :
    CompareAttrValues (SetComparisonFunc m exemplar fn) av op target meta
      = fn av op target meta := by
  simp [CompareAttrValues, GetComparisonFunc, SetComparisonFunc, KeyFN, h]

/-- Claim C5, witness: installing a constant strategy under the `int` key
over an empty registry routes an int-targeted comparison to it. -/
theorem c5_registry_override_witness :
    (GoVal.goInt 5).typeOf = (GoVal.goInt 0).typeOf
  ∧ CompareAttrValues
      (SetComparisonFunc (fun _ => none) (GoVal.goInt 0) (fun _ _ _ _ => CmpOutcome.ok))
      (AttrValue.bool false false true) CompareOp.equal (GoVal.goInt 5) []
      = CmpOutcome.ok :=
  ⟨rfl, c5_registry_override (fun _ => none) (GoVal.goInt 0) (GoVal.goInt 5)
      (fun _ _ _ _ => CmpOutcome.ok) (AttrValue.bool false false true)
      CompareOp.equal [] rfl⟩

/-- For equal-length lists, the positional scan succeeds exactly when the
lists are equal. -/
theorem positionsAllEqual_iff (as : List String) :
    ∀ ts : List String, as.length = ts.length →
      (positionsAllEqual as ts = true ↔ as = ts) := by
  induction as with
  | nil =>
    intro ts h
    cases ts with
    | nil => simp [positionsAllEqual]
    | cons t ts => simp at h
  | cons a as ih =>
    intro ts h
    cases ts with
    | nil => simp at h
    | cons t ts =>
      have h2 : as.length = ts.length := by simpa using h
      have hstep : positionsAllEqual (a :: as) (t :: ts)
          = ((a == t) && positionsAllEqual as ts) := by
        simp [positionsAllEqual]
      rw [hstep, Bool.and_eq_true, beq_iff_eq, ih ts h2]
      simp

/-- Claim C6.  Equal-operator comparison of two string collections succeeds
exactly when, after the case normalization selected by the flag, the two
lists are equal — same length and matching element at every position; every
failing case (length mismatch or positional mismatch) yields a
ComparisonFailed error. -/
theorem c6_collection_equality_order_sensitive (actuals targets : List String) (ci : Bool) :
    ((compareStringsToStrings actuals CompareOp.equal targets ci).err = none ↔
        (if ci then actuals.map goToLower else actuals)
          = (if ci then targets.map goToLower else targets))
  ∧ ((compareStringsToStrings actuals CompareOp.equal targets ci).err = none
      ∨ (compareStringsToStrings actuals CompareOp.equal targets ci).err
          = some CmpError.comparisonFailed) := by
  have herr : (compareStringsToStrings actuals CompareOp.equal targets ci).err
      = (if (if ci then actuals.map goToLower else actuals).length
              = (if ci then targets.map goToLower else targets).length then
           (if positionsAllEqual (if ci then actuals.map goToLower else actuals)
                (if ci then targets.map goToLower else targets) then none
            else some CmpError.comparisonFailed)
         else some CmpError.comparisonFailed) := rfl
  set as := if ci then actuals.map goToLower else actuals with has
  set ts := if ci then targets.map goToLower else targets with hts
  rw [herr]
  by_cases hlen : as.length = ts.length
  · rw [if_pos hlen]
    cases hpos : positionsAllEqual as ts
    · have hne : as ≠ ts := fun he =>
        by rw [(positionsAllEqual_iff as ts hlen).2 he] at hpos; cases hpos
      simp [hne]
    · have heq : as = ts := (positionsAllEqual_iff as ts hlen).1 hpos
      simp [heq]
  · have hne : as ≠ ts := fun he => hlen (by rw [he])
    rw [if_neg hlen]
    simp [hne]

/-- Claim C7.  For a scalar string attribute against a target list, OneOf
succeeds exactly when the (optionally case-normalized) string is an element
of the (equally normalized) target list, NotOneOf exactly when it is not;
every failing case yields a ComparisonFailed error. -/
theorem c7_oneof_notoneof_membership (s : String) (ts : List String) (ci : Bool) :
    ((compareStringToStrings s CompareOp.oneOf ts ci).err = none ↔
        (if ci then goToLower s else s) ∈ (if ci then ts.map goToLower else ts))
  ∧ ((compareStringToStrings s CompareOp.notOneOf ts ci).err = none ↔
        (if ci then goToLower s else s) ∉ (if ci then ts.map goToLower else ts))
  ∧ ((compareStringToStrings s CompareOp.oneOf ts ci).err = none
      ∨ (compareStringToStrings s CompareOp.oneOf ts ci).err
          = some CmpError.comparisonFailed)
  ∧ ((compareStringToStrings s CompareOp.notOneOf ts ci).err = none
      ∨ (compareStringToStrings s CompareOp.notOneOf ts ci).err
          = some CmpError.comparisonFailed) := by
  have h1 : (compareStringToStrings s CompareOp.oneOf ts ci).err
      = (if (if ci then ts.map goToLower else ts).contains
              (if ci then goToLower s else s) then none
         else some CmpError.comparisonFailed) := rfl
  have h2 : (compareStringToStrings s CompareOp.notOneOf ts ci).err
      = (if (if ci then ts.map goToLower else ts).contains
              (if ci then goToLower s else s) then some CmpError.comparisonFailed
         else none) := rfl
  set act := if ci then goToLower s else s with hact
  set tgts := if ci then ts.map goToLower else ts with htgts
  rw [h1, h2]
  have hmem : tgts.contains act = true ↔ act ∈ tgts := by simp
  cases hc : tgts.contains act
  · have hnotin : act ∉ tgts := fun hin => by
      rw [hmem.2 hin] at hc; cases hc
    simp [hnotin]
  · have hin : act ∈ tgts := hmem.1 hc
    simp [hin]

end TFPUtils
